import Mathlib

/-!
Shallow embedding of the excuse-generation core of `app.py` (the L.I.A.R
Flask application): the believability scorer, the fallback selector, the
orchestrating generator, and the two persistence routes the claims touch.

Python floats are modelled by `ℚ`: every constant in the scored paths
(5.0, 1.5, 1.0, 0.5, 2.0, 6.5, 7.5, 8.5, 10.0) is dyadic, and sums of
these stay within a range where IEEE 754 doubles are exact, so the ℚ
model computes the same values the Python program does.  Randomness
(`random.choice`, `random.uniform`) and the external OpenAI call are
modelled as explicit parameters.
-/

namespace LIAR

/-- The ASCII whitespace characters Python's argumentless `str.split()`
splits on (space, tab, newline, carriage return, vertical tab, form feed). -/
def isPySpace (c : Char) : Bool :=
  c = ' ' || c = '\t' || c = '\n' || c = '\r' || c = '\x0b' || c = '\x0c'

/-- Whether `pat` occurs as a contiguous run inside `s`. -/
def containsRun (pat : List Char) : List Char → Bool
  | [] => pat.isEmpty
  | c :: rest => pat.isPrefixOf (c :: rest) || containsRun pat rest

/-- Python's substring test `pat in s` (code-point level). -/
def pyIn (pat s : String) : Bool :=
  containsRun pat.data s.data

/-- Python's `str.lower()` (ASCII case folding, which covers every
keyword the scorer compares against). -/
def pyLower (s : String) : String :=
  ⟨s.data.map Char.toLower⟩

/-- Counts the maximal non-whitespace runs of a character list; `inWord`
records whether the previous character was part of a word. -/
def countWordsAux : List Char → Bool → Nat
  | [], _ => 0
  | c :: rest, inWord =>
    if isPySpace c then countWordsAux rest false
    else (if inWord then 0 else 1) + countWordsAux rest true

/-- `len(text.split())`: Python's argumentless split returns the maximal
non-whitespace runs, so the word count is the number of those runs. -/
def wordCount (s : String) : Nat :=
  countWordsAux s.data false

/-- `specific_words` (app.py line 168). -/
def specific_words : List String :=
  ["doctor", "meeting", "emergency", "appointment", "family",
   "car", "sick", "traffic", "urgent", "hospital"]

/-- `urgency_words.get(urgency, [])` (app.py lines 172–178): the dict
literal keyed by urgency, with `[]` for any other key. -/
def urgency_words (urgency : String) : List String :=
  if urgency = "high" then
    ["emergency", "urgent", "immediately", "crisis", "hospital", "serious"]
  else if urgency = "medium" then
    ["appointment", "meeting", "issue", "problem", "doctor", "important"]
  else if urgency = "low" then
    ["feeling", "might", "possibly", "may", "think", "probably"]
  else []

/-- `ExcuseGenerator.calculate_believability` (app.py lines 159–181).
`category` is accepted and ignored, exactly as in the source. -/
def calculate_believability (excuse_text category urgency : String) : ℚ :=
  let score : ℚ := 5.0
  let length := wordCount excuse_text
  let score : ℚ :=
    if 10 ≤ length ∧ length ≤ 40 then score + 1.5
    else if length < 5 ∨ 60 < length then score - 1.0
    else score
  let specificity := (specific_words.filter (fun word => pyIn word (pyLower excuse_text))).length
  let score : ℚ := score + min ((specificity : ℚ) * 0.5) 2.0
  let score : ℚ :=
    if (urgency_words urgency).any (fun word => pyIn word (pyLower excuse_text))
    then score + 1.5 else score
  min score 10.0

/-! ### Decomposition helpers for the scorer -/

/-- The word-count contribution of the scorer (app.py lines 163–166). -/
def length_adjust (length : Nat) : ℚ :=
  if 10 ≤ length ∧ length ≤ 40 then 1.5
  else if length < 5 ∨ 60 < length then -1.0
  else 0

/-- How many of the ten specificity words occur in the lowercased text
(each vocabulary word counted once, app.py line 169). -/
def specificity_count (excuse_text : String) : Nat :=
  (specific_words.filter (fun word => pyIn word (pyLower excuse_text))).length

/-- The capped specificity contribution (app.py line 170). -/
def specificity_bonus (n : Nat) : ℚ :=
  min ((n : ℚ) * 0.5) 2.0

/-- Whether the lowercased text contains any keyword of the set for the
given urgency (app.py line 178). -/
def urgency_aligned (excuse_text urgency : String) : Bool :=
  (urgency_words urgency).any (fun word => pyIn word (pyLower excuse_text))

lemma calculate_believability_decomp (t c u : String) :
    calculate_believability t c u =
      min (5.0 + length_adjust (wordCount t) + specificity_bonus (specificity_count t)
            + (if urgency_aligned t u then (1.5 : ℚ) else 0)) 10.0 := by
  unfold calculate_believability length_adjust specificity_bonus specificity_count
    urgency_aligned
  dsimp only
  split_ifs <;> ring_nf

lemma neg_one_le_length_adjust (n : Nat) : (-1 : ℚ) ≤ length_adjust n := by
  unfold length_adjust
  split_ifs <;> norm_num

lemma length_adjust_le (n : Nat) : length_adjust n ≤ 1.5 := by
  unfold length_adjust
  split_ifs <;> norm_num

lemma specificity_bonus_nonneg (n : Nat) : 0 ≤ specificity_bonus n := by
  unfold specificity_bonus
  exact le_min (by positivity) (by norm_num)

lemma specificity_bonus_le (n : Nat) : specificity_bonus n ≤ 2.0 :=
  min_le_right _ _

lemma specificity_bonus_mono {m n : Nat} (h : m ≤ n) :
    specificity_bonus m ≤ specificity_bonus n := by
  unfold specificity_bonus
  have : (m : ℚ) ≤ (n : ℚ) := Nat.cast_le.mpr h
  exact min_le_min (by nlinarith) le_rfl

/-- Reference believability definition, following the specification's
wording sentence by sentence: start at 5.0; add 1.5 when the
whitespace-split word count is in [10, 40] and subtract 1.0 when it is
below 5 or above 60; add 0.5 per case-insensitive substring match of the
ten-word specificity vocabulary, capped at 2.0 total; add a flat 1.5
when the lowercased text contains any keyword of the set fixed for the
given urgency; finally take the minimum with 10.0.  It takes no category
argument because the specification says category does not affect the
result. -/
def believability_ref (text urgency : String) : ℚ :=
  let wc := wordCount text
  let word_adj : ℚ :=
    if 10 ≤ wc ∧ wc ≤ 40 then 1.5 else if wc < 5 ∨ 60 < wc then -1.0 else 0
  let vocabulary : List String :=
    ["doctor", "meeting", "emergency", "appointment", "family",
     "car", "sick", "traffic", "urgent", "hospital"]
  let matched := (vocabulary.filter (fun w => pyIn w (pyLower text))).length
  let spec_adj : ℚ := min ((matched : ℚ) * 0.5) 2.0
  let keywords : List String :=
    if urgency = "high" then
      ["emergency", "urgent", "immediately", "crisis", "hospital", "serious"]
    else if urgency = "medium" then
      ["appointment", "meeting", "issue", "problem", "doctor", "important"]
    else if urgency = "low" then
      ["feeling", "might", "possibly", "may", "think", "probably"]
    else []
  let urg_adj : ℚ := if keywords.any (fun w => pyIn w (pyLower text)) then 1.5 else 0
  min (5.0 + word_adj + spec_adj + urg_adj) 10.0

/-- C1: for every excuse text, category and urgency, the believability
score lies in the interval [0, 10] even though the code only applies an
explicit upper clamp (in fact the value never drops below 4). -/
theorem calculate_believability_in_range (text category urgency : String) :
    0 ≤ calculate_believability text category urgency ∧
      calculate_believability text category urgency ≤ 10 := by
  rw [calculate_believability_decomp]
  refine ⟨le_min ?_ (by norm_num), (min_le_right _ _).trans (by norm_num)⟩
  have h1 := neg_one_le_length_adjust (wordCount text)
  have h2 := specificity_bonus_nonneg (specificity_count text)
  have h3 : (0 : ℚ) ≤ if urgency_aligned text urgency then (1.5 : ℚ) else 0 := by
    split_ifs <;> norm_num
  linarith

/-- C2: for every text and category, and every urgency among low, medium
and high, `calculate_believability` computes exactly the reference
definition written from the specification, and the category argument
does not affect the result. -/
theorem calculate_believability_matches_reference (text category urgency : String)
    (h : urgency = "low" ∨ urgency = "medium" ∨ urgency = "high") :
    calculate_believability text category urgency = believability_ref text urgency := by
  rw [calculate_believability_decomp]
  unfold believability_ref length_adjust specificity_bonus specificity_count
    urgency_aligned urgency_words specific_words
  dsimp only

theorem calculate_believability_matches_reference_witness :
    calculate_believability "I have a doctor appointment this afternoon." "work" "medium"
      = believability_ref "I have a doctor appointment this afternoon." "medium" :=
  calculate_believability_matches_reference
    "I have a doctor appointment this afternoon." "work" "medium" (Or.inr (Or.inl rfl))

/-- C6: with equal word-count and urgency-alignment contributions, the
score is monotonically non-decreasing in the number of matched
specificity words; the bonus is 0.5 per match up to the cap of four
matches and constant at 2.0 beyond it. -/
theorem believability_mono_in_specificity (t1 t2 category urgency : String)
    (hlen : length_adjust (wordCount t1) = length_adjust (wordCount t2))
    (hurg : urgency_aligned t1 urgency = urgency_aligned t2 urgency)
    (hspec : specificity_count t2 ≤ specificity_count t1) :
    calculate_believability t2 category urgency
        ≤ calculate_believability t1 category urgency ∧
      (∀ n : Nat, n ≤ 4 → specificity_bonus n = (n : ℚ) * 0.5) ∧
      (∀ n : Nat, 4 ≤ n → specificity_bonus n = 2.0) := by
  refine ⟨?_, ?_, ?_⟩
  · rw [calculate_believability_decomp, calculate_believability_decomp, ← hlen, ← hurg]
    have := specificity_bonus_mono hspec
    exact min_le_min (by linarith) le_rfl
  · intro n hn
    have h4 : (n : ℚ) ≤ 4 := by exact_mod_cast hn
    unfold specificity_bonus
    rw [min_eq_left]
    linarith
  · intro n hn
    have h4 : (4 : ℚ) ≤ (n : ℚ) := by exact_mod_cast hn
    unfold specificity_bonus
    rw [min_eq_right]
    linarith

theorem believability_mono_in_specificity_witness :
    calculate_believability "one two three four five" "work" "none"
      ≤ calculate_believability "doctor meeting emergency apple banana" "work" "none" :=
  (believability_mono_in_specificity "doctor meeting emergency apple banana"
    "one two three four five" "work" "none"
    (by rw [show wordCount "doctor meeting emergency apple banana" = 5 from by decide,
            show wordCount "one two three four five" = 5 from by decide])
    (by decide) (by decide)).1

/-! ### The fallback selector and the orchestrating generator

Python dictionaries with string keys are modelled as association lists;
`PyDict.getD` is `dict.get(key, default)`, which returns the stored
value — even a falsy one — whenever the key is present. -/

/-- String-keyed association list standing in for a Python dict. -/
def PyDict (α : Type) : Type := List (String × α)

/-- `dict.get(key)`: the first binding of `key`, if any. -/
def PyDict.get? {α : Type} (d : PyDict α) (key : String) : Option α :=
  (List.find? (fun p => p.1 = key) d).map (fun p => p.2)

/-- `dict.get(key, default)`. -/
def PyDict.getD {α : Type} (d : PyDict α) (key : String) (dflt : α) : α :=
  (d.get? key).getD dflt

/-- Nested fallback table: language → category → urgency → candidate list
(`self.excuses_db`, loaded from `excuses.json` at startup). -/
def ExcusesDB : Type := PyDict (PyDict (PyDict (List String)))

/-- The result dictionary every generation path returns. -/
structure ExcuseResult where
  excuse : String
  believability_score : ℚ
  category : String
  scenario : String
  urgency : String
deriving DecidableEq, Repr

/-- The candidate-list resolution chain of `get_fallback_excuse`
(app.py lines 186–188): unknown language degrades to `'en'`, unknown
category to `'work'`, unknown urgency to `'medium'`, and a missing
`'medium'` to one hardcoded sentence. -/
def fallback_options (db : ExcusesDB) (category urgency language : String) :
    List String :=
  let language_excuses := db.getD language (db.getD "en" [])
  let category_excuses := language_excuses.getD category (language_excuses.getD "work" [])
  category_excuses.getD urgency
    (category_excuses.getD "medium" ["I need to handle something important today."])

/-- `base_score.get(urgency, 7.5)` (app.py lines 194–195). -/
def fallback_base_score (urgency : String) : ℚ :=
  PyDict.getD [("low", 6.5), ("medium", 7.5), ("high", 8.5)] urgency 7.5

/-- The sentinel returned by the `except` branch of `get_fallback_excuse`
(app.py lines 207–215). -/
def sentinel_excuse (category scenario urgency : String) : ExcuseResult :=
  { excuse := "I have an unexpected situation that requires my attention.",
    believability_score := 7.0,
    category := category, scenario := scenario, urgency := urgency }

/-- `ExcuseGenerator.get_fallback_excuse` (app.py lines 183–215).
`choiceIdx` models `random.choice` (an arbitrary index into the
candidate list) and `jitter` models `random.uniform(-0.8, 1.2)`.  When
the resolved candidate list is empty, `random.choice` raises
`IndexError`, which the `except` clause turns into the sentinel — the
only exception the `try` block can raise in this model. -/
def get_fallback_excuse (db : ExcusesDB) (choiceIdx : Nat) (jitter : ℚ)
    (category scenario urgency language : String) : ExcuseResult :=
  let excuse_options := fallback_options db category urgency language
  if h : excuse_options.length = 0 then
    sentinel_excuse category scenario urgency
  else
    let excuse_text := excuse_options.get
      ⟨choiceIdx % excuse_options.length, Nat.mod_lt _ (Nat.pos_of_ne_zero h)⟩
    let score := fallback_base_score urgency + jitter
    { excuse := excuse_text,
      believability_score := min (max score 5.0) 10.0,
      category := category, scenario := scenario, urgency := urgency }

/-- `ExcuseGenerator.generate_excuse` (app.py lines 108–157).  `apiKey`
models `openai.api_key` (the empty string is falsy); `apiResult` models
the outcome of the `openai.ChatCompletion.create` call: `.ok` carries
the completion text, `.error` stands for any raised exception. -/
def generate_excuse (apiKey : String) (apiResult : Except String String)
    (db : ExcusesDB) (choiceIdx : Nat) (jitter : ℚ)
    (category scenario urgency language : String) : ExcuseResult :=
  if apiKey = "" then
    get_fallback_excuse db choiceIdx jitter category scenario urgency language
  else
    match apiResult with
    | .ok text =>
        let excuse_text := text.trim
        { excuse := excuse_text,
          believability_score := calculate_believability excuse_text category urgency,
          category := category, scenario := scenario, urgency := urgency }
    | .error _ =>
        get_fallback_excuse db choiceIdx jitter category scenario urgency language

/-- How many times `generate_excuse` invokes the fallback selector,
read off the same control flow: once on the no-key path, once on the
exception path, never on the successful external call. -/
def generate_excuse_fallback_calls (apiKey : String)
    (apiResult : Except String String) : Nat :=
  if apiKey = "" then 1
  else
    match apiResult with
    | .ok _ => 0
    | .error _ => 1

/-- The minimal in-source table used when `excuses.json` is missing
(app.py lines 95–103). -/
def minimal_excuses_db : ExcusesDB :=
  [("en", [("work",
    [("medium", ["I'm not feeling well and need to rest today."]),
     ("high", ["I have an emergency that requires immediate attention."]),
     ("low", ["I have some personal matters to attend to."])])])]

lemma PyDict.getD_of_none {α : Type} {d : PyDict α} {k : String}
    (h : d.get? k = none) (dflt : α) : d.getD k dflt = dflt := by
  simp [PyDict.getD, h]

lemma PyDict.getD_getD {α : Type} (d : PyDict α) (k : String) (b : α) :
    d.getD k (d.getD k b) = d.getD k b := by
  unfold PyDict.getD PyDict.get?
  cases List.find? (fun p => p.1 = k) d <;> simp

/-- C3: without an external credential the generator returns exactly the
fallback selector's result on the same arguments; with a credential, any
failure of the external call means exactly one fallback invocation whose
result is returned unchanged — never a retry, never a surfaced error. -/
theorem generate_excuse_fallback_policy (apiKey : String)
    (apiResult : Except String String) (db : ExcusesDB) (i : Nat) (j : ℚ)
    (category scenario urgency language : String) :
    (apiKey = "" →
      generate_excuse apiKey apiResult db i j category scenario urgency language
        = get_fallback_excuse db i j category scenario urgency language) ∧
    (apiKey ≠ "" → ∀ e, apiResult = .error e →
      generate_excuse apiKey apiResult db i j category scenario urgency language
          = get_fallback_excuse db i j category scenario urgency language ∧
        generate_excuse_fallback_calls apiKey apiResult = 1) := by
  constructor
  · intro hk
    simp [generate_excuse, hk]
  · intro hk e he
    subst he
    simp [generate_excuse, generate_excuse_fallback_calls, hk]

theorem generate_excuse_fallback_policy_witness :
    generate_excuse "" (Except.error "RateLimitError") minimal_excuses_db 0 0
        "work" "general" "medium" "en"
      = get_fallback_excuse minimal_excuses_db 0 0 "work" "general" "medium" "en" ∧
    (generate_excuse "sk-test" (Except.error "RateLimitError") minimal_excuses_db 0 0
        "work" "general" "medium" "en"
      = get_fallback_excuse minimal_excuses_db 0 0 "work" "general" "medium" "en" ∧
      generate_excuse_fallback_calls "sk-test" (Except.error "RateLimitError") = 1) :=
  ⟨(generate_excuse_fallback_policy "" (Except.error "RateLimitError")
      minimal_excuses_db 0 0 "work" "general" "medium" "en").1 rfl,
   (generate_excuse_fallback_policy "sk-test" (Except.error "RateLimitError")
      minimal_excuses_db 0 0 "work" "general" "medium" "en").2
     (by decide) "RateLimitError" rfl⟩

/-- C4: the candidate list resolves by degradation — an absent language
degrades to `'en'`, an absent category (within the resolved language) to
`'work'`, an absent urgency (within the resolved category) to
`'medium'`, an absent `'medium'` to the single hardcoded sentence — and
on a non-empty resolution the returned excuse text is a member of the
resolved list. -/
theorem fallback_resolution (db : ExcusesDB) (i : Nat) (j : ℚ)
    (category scenario urgency language : String) :
    (db.get? language = none →
      fallback_options db category urgency language
        = fallback_options db category urgency "en") ∧
    ((db.getD language (db.getD "en" [])).get? category = none →
      fallback_options db category urgency language
        = fallback_options db "work" urgency language) ∧
    (((db.getD language (db.getD "en" [])).getD category
        ((db.getD language (db.getD "en" [])).getD "work" [])).get? urgency = none →
      fallback_options db category urgency language
          = fallback_options db category "medium" language ∧
        (((db.getD language (db.getD "en" [])).getD category
            ((db.getD language (db.getD "en" [])).getD "work" [])).get? "medium" = none →
          fallback_options db category urgency language
            = ["I need to handle something important today."])) ∧
    (fallback_options db category urgency language ≠ [] →
      (get_fallback_excuse db i j category scenario urgency language).excuse
        ∈ fallback_options db category urgency language) := by
  refine ⟨?_, ?_, ?_, ?_⟩
  · intro h
    unfold fallback_options
    dsimp only
    rw [PyDict.getD_of_none h, PyDict.getD_getD]
  · intro h
    unfold fallback_options
    dsimp only
    rw [PyDict.getD_of_none h, PyDict.getD_getD]
  · intro h
    constructor
    · unfold fallback_options
      dsimp only
      rw [PyDict.getD_of_none h, PyDict.getD_getD]
    · intro hm
      unfold fallback_options
      dsimp only
      rw [PyDict.getD_of_none h, PyDict.getD_of_none hm]
  · intro hne
    unfold get_fallback_excuse
    dsimp only
    split_ifs with h0
    · exact absurd (List.length_eq_zero.mp h0) hne
    · exact List.get_mem _ _ _

theorem fallback_resolution_witness :
    (PyDict.get? minimal_excuses_db "xx" = none ∧
      fallback_options minimal_excuses_db "work" "high" "xx"
        = fallback_options minimal_excuses_db "work" "high" "en") ∧
    (fallback_options minimal_excuses_db "work" "high" "en" ≠ [] ∧
      (get_fallback_excuse minimal_excuses_db 0 0 "work" "x" "high" "en").excuse
        ∈ fallback_options minimal_excuses_db "work" "high" "en") :=
  ⟨⟨rfl, (fallback_resolution minimal_excuses_db 0 0 "work" "x" "high" "xx").1 rfl⟩,
   ⟨by decide, (fallback_resolution minimal_excuses_db 0 0 "work" "x" "high" "en").2.2.2
      (by decide)⟩⟩

/-- C5: on the non-exceptional path the fallback believability score is
the urgency base score plus the jitter, clamped to [5, 10]; in every
case (sentinel included) the returned score lies in [5, 10]. -/
theorem fallback_score_formula (db : ExcusesDB) (i : Nat) (j : ℚ)
    (category scenario urgency language : String)
    (hj : -0.8 ≤ j ∧ j ≤ 1.2) :
    (fallback_options db category urgency language ≠ [] →
      (get_fallback_excuse db i j category scenario urgency language).believability_score
        = min (max (fallback_base_score urgency + j) 5.0) 10.0) ∧
    5.0 ≤ (get_fallback_excuse db i j category scenario urgency language).believability_score ∧
    (get_fallback_excuse db i j category scenario urgency language).believability_score ≤ 10.0 := by
  unfold get_fallback_excuse
  dsimp only
  split_ifs with h0
  · exact ⟨fun hne => absurd (List.length_eq_zero.mp h0) hne,
      by norm_num [sentinel_excuse], by norm_num [sentinel_excuse]⟩
  · dsimp only
    exact ⟨fun _ => rfl, le_min (le_max_right _ _) (by norm_num), min_le_right _ _⟩

theorem fallback_score_formula_witness :
    ((-0.8 : ℚ) ≤ 1 ∧ (1 : ℚ) ≤ 1.2) ∧
    (get_fallback_excuse minimal_excuses_db 0 1 "work" "general" "high" "en").believability_score
        = min (max (fallback_base_score "high" + 1) 5.0) 10.0 ∧
    5.0 ≤ (get_fallback_excuse minimal_excuses_db 0 1 "work" "general" "high" "en").believability_score ∧
    (get_fallback_excuse minimal_excuses_db 0 1 "work" "general" "high" "en").believability_score ≤ 10.0 :=
  ⟨⟨by norm_num, by norm_num⟩,
   (fallback_score_formula minimal_excuses_db 0 1 "work" "general" "high" "en"
      ⟨by norm_num, by norm_num⟩).1 (by decide),
   (fallback_score_formula minimal_excuses_db 0 1 "work" "general" "high" "en"
      ⟨by norm_num, by norm_num⟩).2⟩

/-- C7: when the resolved candidate list is empty — the lookup failure
in this model, where `random.choice` raises — the selector returns the
fixed sentinel text with score exactly 7.0, echoing back the given
category, scenario and urgency. -/
theorem fallback_sentinel_on_failure (db : ExcusesDB) (i : Nat) (j : ℚ)
    (category scenario urgency language : String)
    (h : fallback_options db category urgency language = []) :
    get_fallback_excuse db i j category scenario urgency language =
      { excuse := "I have an unexpected situation that requires my attention.",
        believability_score := 7.0,
        category := category, scenario := scenario, urgency := urgency } := by
  unfold get_fallback_excuse
  dsimp only
  split_ifs with h0
  · rfl
  · exact absurd (by rw [h]; rfl) h0

theorem fallback_sentinel_on_failure_witness :
    get_fallback_excuse ([("en", [("work", [("high", [])])])] : ExcusesDB)
        3 1 "work" "demo" "high" "en" =
      { excuse := "I have an unexpected situation that requires my attention.",
        believability_score := 7.0,
        category := "work", scenario := "demo", urgency := "high" } :=
  fallback_sentinel_on_failure _ 3 1 "work" "demo" "high" "en" (by decide)

/-- C9: the scorer is total over arbitrary urgency strings — outside
{low, medium, high} the urgency keyword set defaults to empty, so no
alignment bonus applies while the word-count and specificity
contributions are unchanged; and the fallback base score defaults to
7.5 for such an urgency. -/
theorem scorer_total_on_unknown_urgency (text category urgency : String)
    (db : ExcusesDB) (i : Nat) (j : ℚ) (scenario language : String)
    (h : urgency ≠ "low" ∧ urgency ≠ "medium" ∧ urgency ≠ "high") :
    urgency_words urgency = [] ∧
    calculate_believability text category urgency
        = min (5.0 + length_adjust (wordCount text)
                + specificity_bonus (specificity_count text)) 10.0 ∧
    fallback_base_score urgency = 7.5 ∧
    (fallback_options db category urgency language ≠ [] →
      (get_fallback_excuse db i j category scenario urgency language).believability_score
        = min (max (7.5 + j) 5.0) 10.0) := by
  obtain ⟨h1, h2, h3⟩ := h
  have hw : urgency_words urgency = [] := by
    unfold urgency_words
    rw [if_neg h3, if_neg h2, if_neg h1]
  have hb : fallback_base_score urgency = 7.5 := by
    unfold fallback_base_score PyDict.getD PyDict.get? List.find?
    simp [Ne.symm h1, Ne.symm h2, Ne.symm h3]
  have ha : urgency_aligned text urgency = false := by
    unfold urgency_aligned
    rw [hw]
    rfl
  refine ⟨hw, ?_, hb, ?_⟩
  · rw [calculate_believability_decomp, ha]
    norm_num
  · intro hne
    unfold get_fallback_excuse
    dsimp only
    split_ifs with h0
    · exact absurd (List.length_eq_zero.mp h0) hne
    · dsimp only
      rw [hb]

theorem scorer_total_on_unknown_urgency_witness :
    urgency_words "critical" = [] ∧
    calculate_believability "stuck in traffic" "work" "critical"
        = min (5.0 + length_adjust (wordCount "stuck in traffic")
                + specificity_bonus (specificity_count "stuck in traffic")) 10.0 ∧
    fallback_base_score "critical" = 7.5 ∧
    (get_fallback_excuse minimal_excuses_db 2 1 "work" "commute" "critical" "en").believability_score
      = min (max (7.5 + 1) 5.0) 10.0 :=
  ⟨(scorer_total_on_unknown_urgency "stuck in traffic" "work" "critical"
      minimal_excuses_db 2 1 "commute" "en" ⟨by decide, by decide, by decide⟩).1,
   (scorer_total_on_unknown_urgency "stuck in traffic" "work" "critical"
      minimal_excuses_db 2 1 "commute" "en" ⟨by decide, by decide, by decide⟩).2.1,
   (scorer_total_on_unknown_urgency "stuck in traffic" "work" "critical"
      minimal_excuses_db 2 1 "commute" "en" ⟨by decide, by decide, by decide⟩).2.2.1,
   (scorer_total_on_unknown_urgency "stuck in traffic" "work" "critical"
      minimal_excuses_db 2 1 "commute" "en" ⟨by decide, by decide, by decide⟩).2.2.2
     (by decide)⟩

/-! ### The persistence routes

The relational store is modelled as in-memory lists of rows; SQLAlchemy
autoincrement ids are modelled as one past the current row count.
Datetime columns are outside the model. -/

/-- The `User` model's columns the routes touch (app.py lines 44–52). -/
structure UserRow where
  id : Nat
  username : String
  email : String
deriving DecidableEq, Repr

/-- The `Excuse` model's non-datetime columns (app.py lines 54–68). -/
structure ExcuseRow where
  id : Nat
  user_id : Nat
  category : String
  scenario : String
  excuse_text : String
  believability_score : ℚ
  urgency_level : String
  language : String
  proof_generated : Bool
  times_used : Nat
  effectiveness_rating : ℚ
  is_favorite : Bool
deriving DecidableEq, Repr

/-- The `ProofDocument` model's columns (app.py lines 70–75). -/
structure ProofRow where
  id : Nat
  excuse_id : Nat
  document_type : String
  file_path : String
deriving DecidableEq, Repr

/-- The relational store as the routes see it. -/
structure AppState where
  users : List UserRow
  excuses : List ExcuseRow
  proofs : List ProofRow
deriving DecidableEq, Repr

/-- `os.path.basename` for the forward-slash paths the app builds. -/
def pyBasename (p : String) : String :=
  (p.split (fun c => c = '/')).getLastD p

/-- JSON response of `/api/generate-proof`. -/
structure ProofResponse where
  success : Bool
  error : Option String
  proof_path : Option String
  download_url : Option String
deriving DecidableEq, Repr

/-- The `/api/generate-proof` route (app.py lines 271–304).  `render`
models the outcome of `generate_proof_document`: `some path` when a
renderer produced a file, `none` when it failed and returned `None`.
`excuse_id` is `data.get('excuse_id')`, absent when the body lacks the
key (`Excuse.query.get(None)` finds nothing). -/
def generate_proof_route (st : AppState) (render : Option String)
    (excuse_id : Option Nat) (proof_type : String) : AppState × ProofResponse :=
  match excuse_id with
  | none =>
      (st, { success := false, error := some "Excuse not found",
             proof_path := none, download_url := none })
  | some eid =>
    match st.excuses.find? (fun e => e.id = eid) with
    | none =>
        (st, { success := false, error := some "Excuse not found",
               proof_path := none, download_url := none })
    | some _excuse =>
      match render with
      | some proof_path =>
          let proof_doc : ProofRow :=
            { id := st.proofs.length + 1, excuse_id := eid,
              document_type := proof_type, file_path := proof_path }
          ({ st with
              proofs := st.proofs ++ [proof_doc],
              excuses := st.excuses.map
                (fun e => if e.id = eid then { e with proof_generated := true } else e) },
           { success := true, error := none, proof_path := some proof_path,
             download_url := some ("/static/proofs/" ++ pyBasename proof_path) })
      | none =>
          (st, { success := false, error := some "Failed to generate proof",
                 proof_path := none, download_url := none })

/-- C8: a proof-generation request whose excuse id identifies no stored
excuse returns the structured failure `{success: false, error: 'Excuse
not found'}` and leaves the store unchanged — no ProofDocument row is
created and no Excuse field (proof_generated included) is modified. -/
theorem generate_proof_missing_excuse (st : AppState) (render : Option String)
    (excuse_id : Option Nat) (proof_type : String)
    (h : ∀ eid, excuse_id = some eid → st.excuses.find? (fun e => e.id = eid) = none) :
    generate_proof_route st render excuse_id proof_type =
      (st, { success := false, error := some "Excuse not found",
             proof_path := none, download_url := none }) := by
  cases excuse_id with
  | none => rfl
  | some eid =>
      unfold generate_proof_route
      dsimp only
      rw [h eid rfl]

theorem generate_proof_missing_excuse_witness :
    generate_proof_route
        ⟨[{ id := 1, username := "demo_user", email := "demo@example.com" }],
         [{ id := 1, user_id := 1, category := "work", scenario := "general",
            excuse_text := "I am not feeling well.", believability_score := 7,
            urgency_level := "medium", language := "en", proof_generated := false,
            times_used := 0, effectiveness_rating := 0, is_favorite := false }],
         []⟩
        (some "static/proofs/email_2.png") (some 2) "email" =
      (⟨[{ id := 1, username := "demo_user", email := "demo@example.com" }],
        [{ id := 1, user_id := 1, category := "work", scenario := "general",
           excuse_text := "I am not feeling well.", believability_score := 7,
           urgency_level := "medium", language := "en", proof_generated := false,
           times_used := 0, effectiveness_rating := 0, is_favorite := false }],
        []⟩,
       { success := false, error := some "Excuse not found",
         proof_path := none, download_url := none }) :=
  generate_proof_missing_excuse _ (some "static/proofs/email_2.png") (some 2) "email"
    (by
      intro eid he
      rw [Option.some_inj] at he
      subst he
      decide)

/-- JSON response of `/api/generate-excuse`. -/
structure GenerateResponse where
  success : Bool
  excuse_id : Nat
  excuse : String
  believability_score : ℚ
  category : String
  urgency : String
deriving DecidableEq, Repr

/-- Outcome of the generate-excuse route.  `db.session.commit()` with a
row that collides with the `User` table's primary key (`id`) or unique
columns (`username`, `email`) raises `IntegrityError`; the route has no
handler for it, so the request fails (HTTP 500) and the failed
transaction persists nothing. -/
inductive RouteOutcome where
  | ok (response : GenerateResponse)
  | integrityError
deriving DecidableEq, Repr

/-- The hardcoded default user of app.py line 241. -/
def demo_user : UserRow :=
  { id := 1, username := "demo_user", email := "demo@example.com" }

/-- Whether inserting the demo user collides with a stored row on the
primary key `id` or a unique column (`username`, `email`) — the
condition under which the commit at app.py line 243 raises
`IntegrityError`. -/
def user_insert_conflict (st : AppState) : Bool :=
  st.users.any (fun u =>
    u.id = demo_user.id || u.username = demo_user.username || u.email = demo_user.email)

/-- The `/api/generate-excuse` route (app.py lines 224–269): run the
generator; when the requested `user_id` matches no stored user, insert
the hardcoded demo user — an insert whose commit raises
`IntegrityError` when it collides with an existing row, persisting
nothing; otherwise persist the new excuse row with the requested
`user_id` and the `Excuse` model's column defaults.  Foreign keys are
not enforced (SQLite defaults), so the excuse insert itself cannot
fail. -/
def generate_excuse_route (st : AppState) (apiKey : String)
    (apiResult : Except String String) (db : ExcusesDB) (choiceIdx : Nat) (jitter : ℚ)
    (category scenario urgency language : String) (user_id : Nat) :
    AppState × RouteOutcome :=
  let excuse_data :=
    generate_excuse apiKey apiResult db choiceIdx jitter category scenario urgency language
  let new_excuse : ExcuseRow :=
    { id := st.excuses.length + 1, user_id := user_id, category := category,
      scenario := scenario, excuse_text := excuse_data.excuse,
      believability_score := excuse_data.believability_score,
      urgency_level := urgency, language := language, proof_generated := false,
      times_used := 0, effectiveness_rating := 0, is_favorite := false }
  let response : GenerateResponse :=
    { success := true, excuse_id := new_excuse.id, excuse := excuse_data.excuse,
      believability_score := excuse_data.believability_score,
      category := category, urgency := urgency }
  match st.users.find? (fun u => u.id = user_id) with
  | some _ =>
      ({ st with excuses := st.excuses ++ [new_excuse] }, .ok response)
  | none =>
      if user_insert_conflict st then
        (st, .integrityError)
      else
        ({ st with users := st.users ++ [demo_user],
                   excuses := st.excuses ++ [new_excuse] },
         .ok response)

/-- C10, counterexample to the claim as stated: in the program's steady
state — the demo user (id 1) already stored — a request with the absent
user id 5 does not persist any excuse row: the demo-user insert at
app.py line 241 collides with the stored id 1 row, the commit raises
`IntegrityError`, and the store is unchanged. -/
theorem generate_excuse_route_lazy_user_counterexample :
    List.find? (fun u => u.id = 5) (⟨[demo_user], [], []⟩ : AppState).users = none ∧
    generate_excuse_route ⟨[demo_user], [], []⟩ "" (Except.error "APIConnectionError")
        minimal_excuses_db 0 0 "work" "general" "medium" "en" 5
      = (⟨[demo_user], [], []⟩, RouteOutcome.integrityError) :=
  ⟨rfl, rfl⟩

/-- C10, amended: when the requested user id matches no stored user AND
inserting the demo user collides with no stored row (no user with id 1,
username 'demo_user' or email 'demo@example.com'), the lazily created
user always has id 1 and username 'demo_user' regardless of the
requested id, while the persisted excuse row carries the requested user
id — so for any absent user id other than 1 the stored excuse references
a user that was not created.  (When a collision exists the commit
raises `IntegrityError` and nothing is persisted, per the
counterexample.) -/
theorem generate_excuse_route_lazy_user (st : AppState) (apiKey : String)
    (apiResult : Except String String) (db : ExcusesDB) (i : Nat) (j : ℚ)
    (category scenario urgency language : String) (user_id : Nat)
    (h : st.users.find? (fun u => u.id = user_id) = none)
    (hc : user_insert_conflict st = false) :
    (generate_excuse_route st apiKey apiResult db i j
        category scenario urgency language user_id).1.users
        = st.users ++ [{ id := 1, username := "demo_user", email := "demo@example.com" }] ∧
    (∃ row : ExcuseRow,
      (generate_excuse_route st apiKey apiResult db i j
          category scenario urgency language user_id).1.excuses
          = st.excuses ++ [row] ∧
        row.user_id = user_id) ∧
    (user_id ≠ 1 →
      ∀ u ∈ (generate_excuse_route st apiKey apiResult db i j
          category scenario urgency language user_id).1.users,
        u.id ≠ user_id) := by
  unfold generate_excuse_route
  dsimp only
  rw [h]
  simp only [hc, Bool.false_eq_true, if_false]
  refine ⟨rfl, ⟨_, rfl, rfl⟩, ?_⟩
  intro hne u hu
  simp only [List.mem_append, List.mem_singleton] at hu
  rcases hu with hu | rfl
  · have := List.find?_eq_none.mp h u hu
    simpa using this
  · simpa [demo_user] using fun hh => hne hh.symm

theorem generate_excuse_route_lazy_user_witness :
    (generate_excuse_route ⟨[], [], []⟩ "" (Except.error "APIConnectionError")
        minimal_excuses_db 0 0 "work" "general" "medium" "en" 5).1.users
        = [] ++ [{ id := 1, username := "demo_user", email := "demo@example.com" }] ∧
    (∃ row : ExcuseRow,
      (generate_excuse_route ⟨[], [], []⟩ "" (Except.error "APIConnectionError")
          minimal_excuses_db 0 0 "work" "general" "medium" "en" 5).1.excuses
          = [] ++ [row] ∧
        row.user_id = 5) ∧
    ((5 : Nat) ≠ 1 →
      ∀ u ∈ (generate_excuse_route ⟨[], [], []⟩ "" (Except.error "APIConnectionError")
          minimal_excuses_db 0 0 "work" "general" "medium" "en" 5).1.users,
        u.id ≠ 5) :=
  generate_excuse_route_lazy_user ⟨[], [], []⟩ "" (Except.error "APIConnectionError")
    minimal_excuses_db 0 0 "work" "general" "medium" "en" 5 rfl rfl

end LIAR
